import Mathlib

/-!
Shallow embedding of the digital-start-talents backend (`src/app.py`).

The app is a Flask HTTP service whose handlers perform reads/writes against a
relational store. We model the store as lists of rows, each handler as a pure
function from the store (plus request data) to a result and an updated store.
HTTP failure via `abort(code)` is modelled as `HandlerError.httpError code`;
an uncaught Python exception (attribute access on `None`, `.one()` finding no
row, a database constraint violation that no handler catches) is modelled as
`HandlerError.unhandledError` (the framework turns these into a 500 response).
Python integers are unbounded, so `points` and `amount` are `Int`.
-/

namespace DigitalStart

/-- `MentorshipState` enum from `app.py`. -/
inductive MentorshipState where
  | not_enough_points
  | uninitialized
  | waiting
  | mentored
deriving DecidableEq, Repr

/-- `MENTORSHIP_REQUIRES = 1_000` from `app.py`. -/
def MENTORSHIP_REQUIRES : Int := 1000

/-- A row of the `kids` table. Nullable columns are `Option`. -/
structure Kid where
  id : Nat
  phone_number : Option String
  account_id : String
  name : String
  birth_date : String
  goal : Option String
  points : Int
  avatar : Option String
  mentorship : MentorshipState
deriving DecidableEq, Repr

/-- A row of the `tags` table. -/
structure Tag where
  id : Nat
  name : String
deriving DecidableEq, Repr

/-- A row of the `tasks` table. -/
structure Task where
  id : Nat
  kid_id : Nat
  text : String
  order : Int
  done : Bool
deriving DecidableEq, Repr

/-- A row of the `propositions` table. -/
structure Proposition where
  id : Nat
  title : String
  description : Option String
  image : Option String
  points_required : Int
  type : String
  content : String
deriving DecidableEq, Repr

/-- The relational store: the tables the verified handlers touch.
`interests` is the `interests` association table, a list of
`(kid_id, tag_id)` rows in insertion order. The table declares a composite
primary key `(kid_id, tag_id)` (app.py lines 75-79), so the database
rejects duplicate rows at commit time; `addInterests`, the only verified
writer of this table, models that enforcement. -/
structure Store where
  kids : List Kid
  tags : List Tag
  tasks : List Task
  propositions : List Proposition
  interests : List (Nat × Nat)
deriving DecidableEq, Repr

/-- Outcome of a failed handler: an explicit `abort(code)`, or an uncaught
exception surfacing as an unstructured server error. -/
inductive HandlerError where
  | httpError (code : Nat)
  | unhandledError
deriving DecidableEq, Repr

/-- `Kid.query.filter_by(account_id=...)` returning at most one row
(`account_id` is unique). -/
def findKidByAccount (s : Store) (acc : String) : Option Kid :=
  s.kids.find? (fun k => k.account_id == acc)

/-- `Kid.query.get(kid_id)`: primary-key lookup. -/
def getKid (s : Store) (kidId : Nat) : Option Kid :=
  s.kids.find? (fun k => k.id == kidId)

/-- `Tag.query.filter_by(name=...).one_or_none()` (`name` is unique). -/
def findTagByName (s : Store) (n : String) : Option Tag :=
  s.tags.find? (fun t => t.name == n)

/-- `Proposition.query.get(propos_id)`: primary-key lookup. -/
def findProposition (s : Store) (pid : Nat) : Option Proposition :=
  s.propositions.find? (fun p => p.id == pid)

/-- `Task.query.get(task_id)`: primary-key lookup. -/
def findTask (s : Store) (tid : Nat) : Option Task :=
  s.tasks.find? (fun t => t.id == tid)

/-- The `kid.tasks` relationship: all tasks whose `kid_id` is this kid. -/
def kidTasks (s : Store) (kidId : Nat) : List Task :=
  s.tasks.filter (fun t => t.kid_id == kidId)

/-- Mutating the fetched kid row and committing: every row with this primary
key (unique in the database) is replaced by its image under `f`. -/
def updateKid (s : Store) (kidId : Nat) (f : Kid → Kid) : Store :=
  { s with kids := s.kids.map (fun k => if k.id == kidId then f k else k) }

/-- The JSON body returned by `login`: the signed token carries the kid's row
id as its identity, and `register = (kid.goal is None)`. -/
structure LoginResponse where
  tokenKid : Nat
  register : Bool
deriving DecidableEq, Repr

/-- `login` handler (`POST /login`): resolves the kid by `account_id`,
aborts with 400 when absent, binds `phone_number` only when the stored one
is `None`, and answers with a token plus the `register` flag. -/
def login (s : Store) (phone_number account_id : String) :
    Except HandlerError LoginResponse × Store :=
  match findKidByAccount s account_id with
  | none => (.error (.httpError 400), s)
  | some kid =>
    let s' := if kid.phone_number.isNone
      then updateKid s kid.id (fun k => { k with phone_number := some phone_number })
      else s
    (.ok { tokenKid := kid.id, register := kid.goal.isNone }, s')

/-- Fresh primary key for an inserted tag row. -/
def nextTagId (s : Store) : Nat :=
  s.tags.foldl (fun m t => max m t.id) 0 + 1

/-- `manage_tags` POST branch (`POST /tags`): inserting a tag whose `name`
already exists makes `commit` raise (unique constraint), which the handler
catches and turns into a 400; otherwise the row is inserted and 201 returned.
The result is the HTTP status code together with the resulting store. -/
def manageTagsPost (s : Store) (tagName : String) : Nat × Store :=
  if s.tags.any (fun t => t.name == tagName)
  then (400, s)
  else (201, { s with tags := s.tags ++ [{ id := nextTagId s, name := tagName }] })

/-- The association rows a `POST /kids/interests` request resolves: one
`(kid_id, tag_id)` pair per requested name that matches a stored tag, in
request order; names that resolve to no stored tag contribute nothing
(the loop in `add_interests` skips them). -/
def resolvedInterests (s : Store) (kidId : Nat) (names : List String) :
    List (Nat × Nat) :=
  names.filterMap fun n => (findTagByName s n).map fun t => (kidId, t.id)

/-- The INSERTs the commit of `add_interests` emits into the `interests`
association table: appending a tag that is already in the kid's stored
collection is a no-op in the unit-of-work diff, so only resolved pairs not
already stored are inserted. -/
def insertedInterests (s : Store) (kidId : Nat) (names : List String) :
    List (Nat × Nat) :=
  (resolvedInterests s kidId names).filter fun p => !s.interests.contains p

/-- `add_interests` handler (`POST /kids/interests`): for each requested tag
name, look the tag up by name; names that do not resolve are silently
skipped, resolved tags are appended to the kid's interests collection.
The `interests` association table carries a composite primary key
`(kid_id, tag_id)` (app.py lines 75-79): appending an interest that is
already stored emits no INSERT at commit, while a request whose emitted
INSERTs collide on that key makes `commit` raise an IntegrityError that the
handler does not catch — an unhandled server error, with the transaction
rolled back and the store unchanged. -/
def addInterests (s : Store) (kidId : Nat) (names : List String) :
    Except HandlerError Unit × Store :=
  match getKid s kidId with
  | none => (.error .unhandledError, s)
  | some kid =>
    let inserted := insertedInterests s kid.id names
    if inserted.Nodup
    then (.ok (), { s with interests := s.interests ++ inserted })
    else (.error .unhandledError, s)

/-- `set_goal` handler (`POST|PUT /kids/goal`): sets the kid's goal; the POST
variant additionally deletes every task row of that kid. -/
def setGoal (s : Store) (isPost : Bool) (kidId : Nat) (goalText : String) :
    Except HandlerError Unit × Store :=
  match getKid s kidId with
  | none => (.error .unhandledError, s)
  | some kid =>
    let s1 := updateKid s kid.id (fun k => { k with goal := some goalText })
    let s2 := if isPost
      then { s1 with tasks := s1.tasks.filter (fun t => t.kid_id != kid.id) }
      else s1
    (.ok (), s2)

/-- The task projection serialized by the GET branch of `manage_tasks`. -/
structure TaskView where
  id : Nat
  text : String
  done : Bool
deriving DecidableEq, Repr

/-- Serialization of one task row. -/
def taskView (t : Task) : TaskView :=
  { id := t.id, text := t.text, done := t.done }

/-- `manage_tasks` GET branch (`GET /kids/goal/tasks`): the kid's tasks,
sorted by the `order` column (`sorted(kid.tasks, key=lambda t: t.order)`,
a stable sort, modelled by `List.mergeSort`), then serialized. -/
def manageTasksGet (s : Store) (kidId : Nat) :
    Except HandlerError (List TaskView) :=
  match getKid s kidId with
  | none => .error .unhandledError
  | some kid =>
    .ok (((kidTasks s kid.id).mergeSort
      (fun a b => a.order ≤ b.order)).map taskView)

/-- `manage_tasks` PUT branch (`PUT /kids/goal/tasks`): addresses a task by
global id, aborts with 404 when it does not exist, otherwise stores the
`done` flag. -/
def manageTasksPut (s : Store) (kidId : Nat) (taskId : Nat) (doneVal : Bool) :
    Except HandlerError Unit × Store :=
  match getKid s kidId with
  | none => (.error .unhandledError, s)
  | some _ =>
    match findTask s taskId with
    | none => (.error (.httpError 404), s)
    | some _ =>
      (.ok (), { s with tasks := s.tasks.map fun t =>
        if t.id == taskId then { t with done := doneVal } else t })

/-- The JSON object returned by `get_proposition_card`; `content` is present
exactly when the handler adds the key to the dictionary. -/
structure PropositionCard where
  title : String
  image : Option String
  description : Option String
  type : String
  points : Int
  content : Option String
deriving DecidableEq, Repr

/-- `get_proposition_card` handler (`GET /propositions/card`): builds the
card for the requested proposition and reveals `content` when the kid's
points reach `points_required`. A missing proposition row is dereferenced
(`propos.title` on `None`), an uncaught exception. -/
def getPropositionCard (s : Store) (kidId : Nat) (proposId : Nat) :
    Except HandlerError PropositionCard :=
  match getKid s kidId with
  | none => .error .unhandledError
  | some kid =>
    match findProposition s proposId with
    | none => .error .unhandledError
    | some propos =>
      .ok { title := propos.title
            image := propos.image
            description := propos.description
            type := propos.type
            points := propos.points_required
            content := if kid.points ≥ propos.points_required
              then some propos.content else none }

/-- Effect of `add_points` on the fetched kid row: add the signed amount and
advance `not_enough_points` to `uninitialized` when the new balance reaches
`MENTORSHIP_REQUIRES`. -/
def addPointsKid (kid : Kid) (amount : Int) : Kid :=
  let pts := kid.points + amount
  { kid with
    points := pts
    mentorship :=
      if pts ≥ MENTORSHIP_REQUIRES ∧ kid.mentorship = .not_enough_points
      then .uninitialized
      else kid.mentorship }

/-- `add_points` handler (`POST /kids/points/add`): looks the kid up by
`account_id` with `.one()` (raising when absent) and applies
`addPointsKid`. -/
def addPoints (s : Store) (account_id : String) (amount : Int) :
    Except HandlerError Unit × Store :=
  match findKidByAccount s account_id with
  | none => (.error .unhandledError, s)
  | some kid => (.ok (), updateKid s kid.id (fun k => addPointsKid k amount))

/-- Effect of `wait_for_mentor` on the kid row: unconditionally set the
mentorship state to `waiting`. -/
def waitForMentorKid (kid : Kid) : Kid :=
  { kid with mentorship := .waiting }

/-- `wait_for_mentor` handler (`POST /kids/mentor/ready`). -/
def waitForMentor (s : Store) (kidId : Nat) :
    Except HandlerError Unit × Store :=
  match getKid s kidId with
  | none => (.error .unhandledError, s)
  | some kid => (.ok (), updateKid s kid.id waitForMentorKid)

/-- Position of a state in the forward order
`not_enough_points → uninitialized → waiting → mentored`. -/
def MentorshipState.rank : MentorshipState → Nat
  | .not_enough_points => 0
  | .uninitialized => 1
  | .waiting => 2
  | .mentored => 3

/-- The two handler effects that can touch a kid's mentorship state. -/
inductive KidOp where
  | addPts (amount : Int)
  | mentorReady
deriving DecidableEq, Repr

/-- Apply one of the two state-touching handlers to a kid row. -/
def applyOp (k : Kid) : KidOp → Kid
  | .addPts a => addPointsKid k a
  | .mentorReady => waitForMentorKid k

/-- Run a sequence of add-points / mentor-ready calls on a kid row. -/
def runOps (k : Kid) (ops : List KidOp) : Kid :=
  ops.foldl applyOp k

/-! Concrete rows used by the witness theorems. -/

/-- Concrete kid row for witnesses. -/
def mkKid (i : Nat) (acc : String) (phone : Option String)
    (goal : Option String) (pts : Int) (st : MentorshipState) : Kid :=
  { id := i, phone_number := phone, account_id := acc, name := "Alex",
    birth_date := "2010-01-01", goal := goal, points := pts,
    avatar := none, mentorship := st }

/-- Kid for the C1 witness: exactly 500 points. -/
def w1Kid : Kid := mkKid 1 "acc-1" (some "79000000001") (some "goal") 500 .not_enough_points

/-- Proposition for the C1 witness: requires exactly 500 points. -/
def w1Propos : Proposition :=
  { id := 7, title := "Museum pass", description := some "a pass",
    image := some "img.png", points_required := 500, type := "code",
    content := "SECRET-CODE" }

/-- Store for the C1 witness. -/
def w1Store : Store :=
  { kids := [w1Kid], tags := [], tasks := [], propositions := [w1Propos],
    interests := [] }

/-- Kid for the C2 witness: 100 points, so adding 900 reaches the
threshold exactly. -/
def w2Kid : Kid := mkKid 2 "acc-2" (some "79000000002") (some "goal") 100 .not_enough_points

/-- Store for the C2 witness. -/
def w2Store : Store :=
  { kids := [w2Kid], tags := [], tasks := [], propositions := [], interests := [] }

/-- Kid for the C3 witness: fresh kid in the default state. -/
def w3Kid : Kid := mkKid 3 "acc-3" none none 100 .not_enough_points

/-- C1: for every authenticated `GET /propositions/card` request for an
existing proposition, the response carries the proposition's title, image,
description, type and points, and carries `content` exactly when the
requesting kid's current points balance is at least the proposition's
`points_required` (at exact equality, content is revealed). -/
theorem proposition_card_gating (s : Store) (kidId proposId : Nat)
    (kid : Kid) (propos : Proposition)
    (hk : getKid s kidId = some kid)
    (hp : findProposition s proposId = some propos) :
    ∃ card, getPropositionCard s kidId proposId = .ok card ∧
      card.title = propos.title ∧
      card.image = propos.image ∧
      card.description = propos.description ∧
      card.type = propos.type ∧
      card.points = propos.points_required ∧
      (card.content = some propos.content ↔ kid.points ≥ propos.points_required) ∧
      (card.content = none ↔ kid.points < propos.points_required) := by
  unfold getPropositionCard
  rw [hk, hp]
  refine ⟨_, rfl, rfl, rfl, rfl, rfl, rfl, ?_, ?_⟩
  · by_cases h : kid.points ≥ propos.points_required <;> simp [h]
  · by_cases h : kid.points ≥ propos.points_required
    · simp [h]
    · simp [h]
      omega

/-- Witness for C1 at the equality boundary: the kid holds exactly the
required number of points and the content is revealed. -/
theorem proposition_card_gating_witness :
    ∃ card, getPropositionCard w1Store 1 7 = .ok card ∧
      card.title = w1Propos.title ∧
      card.image = w1Propos.image ∧
      card.description = w1Propos.description ∧
      card.type = w1Propos.type ∧
      card.points = w1Propos.points_required ∧
      (card.content = some w1Propos.content ↔ w1Kid.points ≥ w1Propos.points_required) ∧
      (card.content = none ↔ w1Kid.points < w1Propos.points_required) :=
  proposition_card_gating w1Store 1 7 w1Kid w1Propos (by decide) (by decide)

/-- C2: `POST /kids/points/add` on an existing kid adds the signed amount to
the kid's points; the mentorship state changes to `uninitialized` exactly
when the new balance is at least 1000 and the prior state was
`not_enough_points`, and is otherwise left unchanged. -/
theorem add_points_spec (s : Store) (acc : String) (amount : Int) (kid : Kid)
    (hk : findKidByAccount s acc = some kid) :
    (addPoints s acc amount).1 = .ok () ∧
    (addPoints s acc amount).2.kids
      = s.kids.map (fun k => if k.id = kid.id then addPointsKid k amount else k) ∧
    (addPointsKid kid amount).points = kid.points + amount ∧
    ((addPointsKid kid amount).mentorship = .uninitialized ∧
        kid.mentorship ≠ .uninitialized ↔
      kid.points + amount ≥ 1000 ∧ kid.mentorship = .not_enough_points) ∧
    (¬(kid.points + amount ≥ 1000 ∧ kid.mentorship = .not_enough_points) →
      (addPointsKid kid amount).mentorship = kid.mentorship) := by
  refine ⟨?_, ?_, ?_, ?_, ?_⟩
  · simp [addPoints, hk]
  · simp [addPoints, hk, updateKid, beq_iff_eq]
  · simp [addPointsKid]
  · by_cases h : kid.points + amount ≥ 1000 ∧ kid.mentorship = .not_enough_points
    · have := h.2
      simp [addPointsKid, MENTORSHIP_REQUIRES, h, this]
    · simp only [addPointsKid, MENTORSHIP_REQUIRES]
      rw [if_neg (by exact_mod_cast h)]
      simp [h]
  · intro h
    simp only [addPointsKid, MENTORSHIP_REQUIRES]
    rw [if_neg (by exact_mod_cast h)]

/-- Witness for C2: a kid with 100 points receives 900 and crosses the
threshold exactly, advancing to `uninitialized`. -/
theorem add_points_spec_witness :
    (addPoints w2Store "acc-2" 900).1 = .ok () ∧
    (addPoints w2Store "acc-2" 900).2.kids
      = w2Store.kids.map (fun k => if k.id = w2Kid.id then addPointsKid k 900 else k) ∧
    (addPointsKid w2Kid 900).points = w2Kid.points + 900 ∧
    ((addPointsKid w2Kid 900).mentorship = .uninitialized ∧
        w2Kid.mentorship ≠ .uninitialized ↔
      w2Kid.points + 900 ≥ 1000 ∧ w2Kid.mentorship = .not_enough_points) ∧
    (¬(w2Kid.points + 900 ≥ 1000 ∧ w2Kid.mentorship = .not_enough_points) →
      (addPointsKid w2Kid 900).mentorship = w2Kid.mentorship) :=
  add_points_spec w2Store "acc-2" 900 w2Kid (by decide)

/-- Neither handler effect can produce the `mentored` state from a state
that is not already `mentored`. -/
theorem applyOp_not_mentored (k : Kid) (op : KidOp)
    (h : k.mentorship ≠ .mentored) :
    (applyOp k op).mentorship ≠ .mentored := by
  cases op with
  | addPts a =>
    simp only [applyOp, addPointsKid]
    split
    · simp
    · exact h
  | mentorReady => simp [applyOp, waitForMentorKid]

/-- On a state that is not `mentored`, each handler effect is monotone with
respect to the forward order of mentorship states. -/
theorem applyOp_rank_mono (k : Kid) (op : KidOp)
    (h : k.mentorship ≠ .mentored) :
    k.mentorship.rank ≤ (applyOp k op).mentorship.rank := by
  cases op with
  | addPts a =>
    simp only [applyOp, addPointsKid]
    split
    · rename_i hc
      rw [hc.2]
      decide
    · exact le_refl _
  | mentorReady =>
    simp only [applyOp, waitForMentorKid]
    cases hm : k.mentorship <;> simp_all [MentorshipState.rank]

/-- A kid that starts away from `mentored` never reaches `mentored` through
add-points and mentor-ready calls. -/
theorem runOps_not_mentored (k : Kid) (ops : List KidOp)
    (h : k.mentorship ≠ .mentored) :
    (runOps k ops).mentorship ≠ .mentored := by
  induction ops generalizing k with
  | nil => exact h
  | cons op ops ih => exact ih (applyOp k op) (applyOp_not_mentored k op h)

/-- C3: under the order `not_enough_points < uninitialized < waiting <
mentored`, starting from the default state, no sequence of add-points and
mentor-ready calls ever moves a kid's mentorship state backwards: each
further step yields a state at least as far along as the state before it,
even if points later drop below 1000. -/
theorem mentorship_never_regresses (k0 : Kid)
    (h0 : k0.mentorship = .not_enough_points)
    (ops : List KidOp) (op : KidOp) :
    (runOps k0 ops).mentorship.rank ≤
      (runOps k0 (ops ++ [op])).mentorship.rank := by
  have hnm : (runOps k0 ops).mentorship ≠ .mentored :=
    runOps_not_mentored k0 ops (by rw [h0]; simp)
  have hsplit : runOps k0 (ops ++ [op]) = applyOp (runOps k0 ops) op := by
    simp [runOps, List.foldl_append]
  rw [hsplit]
  exact applyOp_rank_mono _ op hnm

/-- Witness for C3: a fresh kid gains 900 points (reaching the threshold)
and then calls mentor-ready; each step moves the state forward. -/
theorem mentorship_never_regresses_witness :
    (runOps w3Kid [KidOp.addPts 900]).mentorship.rank ≤
      (runOps w3Kid ([KidOp.addPts 900] ++ [KidOp.mentorReady])).mentorship.rank :=
  mentorship_never_regresses w3Kid rfl [KidOp.addPts 900] KidOp.mentorReady

/-- The store with no rows at all. -/
def emptyStore : Store :=
  { kids := [], tags := [], tasks := [], propositions := [], interests := [] }

/-- Kid for the C4 witness: goal unset, so login must report `register`. -/
def w4Kid : Kid := mkKid 4 "acc-4" (some "79000000004") none 100 .not_enough_points

/-- Store for the C4 witness. -/
def w4Store : Store :=
  { kids := [w4Kid], tags := [], tasks := [], propositions := [], interests := [] }

/-- Kid for the C5 witness: no phone number bound yet. -/
def w5Kid : Kid := mkKid 5 "acc-5" none none 100 .not_enough_points

/-- Store for the C5 witness. -/
def w5Store : Store :=
  { kids := [w5Kid], tags := [], tasks := [], propositions := [], interests := [] }

/-- C4 counterexample: on the empty store, a `POST /login` whose
`account_id` matches no kid fails with HTTP status 400 (Bad Request) —
`abort(400)` in the handler — not 404 (Not Found) as the claim states;
the store is left unchanged. -/
theorem login_missing_kid_is_400_not_404 :
    (login emptyStore "79000000000" "missing-account").1
      = .error (.httpError 400) ∧
    (login emptyStore "79000000000" "missing-account").1
      ≠ .error (.httpError 404) ∧
    (login emptyStore "79000000000" "missing-account").2 = emptyStore := by
  refine ⟨rfl, ?_, rfl⟩
  simp [login, emptyStore, findKidByAccount]

/-- C4 (amended): a `POST /login` whose `account_id` matches no kid fails
with a 400 client error and leaves the store unchanged; on a matching kid
it succeeds with a token carrying that kid's id and a `register` flag that
is true exactly when the kid's goal is unset. -/
theorem login_spec (s : Store) (phone acc : String) :
    (findKidByAccount s acc = none →
      login s phone acc = (.error (.httpError 400), s)) ∧
    (∀ kid, findKidByAccount s acc = some kid →
      ∃ resp, (login s phone acc).1 = .ok resp ∧ resp.tokenKid = kid.id ∧
        (resp.register = true ↔ kid.goal = none)) := by
  constructor
  · intro h
    simp [login, h]
  · intro kid hk
    refine ⟨{ tokenKid := kid.id, register := kid.goal.isNone }, ?_, rfl, ?_⟩
    · simp [login, hk]
    · simp [Option.isNone_iff_eq_none]

/-- Witness for the amended C4: logging in the kid whose goal is unset
succeeds and reports `register = true`. -/
theorem login_spec_witness :
    ∃ resp, (login w4Store "79000000004" "acc-4").1 = .ok resp ∧
      resp.tokenKid = w4Kid.id ∧ (resp.register = true ↔ w4Kid.goal = none) :=
  (login_spec w4Store "79000000004" "acc-4").2 w4Kid (by decide)

/-- C5: login is idempotent on `phone_number` binding: when the stored
number is non-null a successful login leaves the whole store unchanged
(whatever number is supplied); when it is null, the supplied number is
persisted on the kid's row, after which every further login with any
number leaves the store unchanged. -/
theorem login_phone_binding (s : Store) (phone acc : String) (kid : Kid)
    (hk : findKidByAccount s acc = some kid) :
    (kid.phone_number ≠ none → (login s phone acc).2 = s) ∧
    (kid.phone_number = none →
      findKidByAccount (login s phone acc).2 acc
        = some { kid with phone_number := some phone } ∧
      ∀ phone2, (login (login s phone acc).2 phone2 acc).2
        = (login s phone acc).2) := by
  constructor
  · intro h
    simp [login, hk, Option.isNone_iff_eq_none, h]
  · intro h
    have hfind : findKidByAccount (login s phone acc).2 acc
        = some { kid with phone_number := some phone } := by
      have hs : (login s phone acc).2
          = updateKid s kid.id (fun k => { k with phone_number := some phone }) := by
        simp [login, hk, h]
      rw [hs]
      unfold findKidByAccount updateKid
      rw [List.find?_map]
      have hpg : ((fun k : Kid => k.account_id == acc) ∘
          (fun k => if k.id == kid.id
            then { k with phone_number := some phone } else k))
          = fun k : Kid => k.account_id == acc := by
        funext k
        simp only [Function.comp_apply]
        by_cases hid : k.id = kid.id
        · simp [hid]
        · simp [hid]
      rw [hpg]
      have hk2 : s.kids.find? (fun k => k.account_id == acc) = some kid := hk
      rw [hk2]
      simp
    refine ⟨hfind, ?_⟩
    intro phone2
    generalize hgen : (login s phone acc).2 = t at hfind
    simp [login, hfind]

/-- Witness for C5: the first login of a kid with no phone number binds the
supplied number; a second login with a different number changes nothing. -/
theorem login_phone_binding_witness :
    findKidByAccount (login w5Store "79000000005" "acc-5").2 "acc-5"
      = some { w5Kid with phone_number := some "79000000005" } ∧
    (login (login w5Store "79000000005" "acc-5").2 "79000000777" "acc-5").2
      = (login w5Store "79000000005" "acc-5").2 := by
  have h := (login_phone_binding w5Store "79000000005" "acc-5" w5Kid
    (by decide)).2 rfl
  exact ⟨h.1, h.2 "79000000777"⟩

/-- Concrete task row for witnesses. -/
def mkTask (i : Nat) (kidId : Nat) (txt : String) (ord : Int) (d : Bool) : Task :=
  { id := i, kid_id := kidId, text := txt, order := ord, done := d }

/-- Kid for the C6 witness. -/
def w6KidA : Kid :=
  mkKid 6 "acc-6" (some "79000000006") (some "old goal") 100 .not_enough_points

/-- Second kid for the C6 witness, whose tasks must survive. -/
def w6KidB : Kid :=
  mkKid 60 "acc-60" (some "79000000060") (some "other goal") 100 .not_enough_points

/-- Store for the C6 witness: two kids, tasks belonging to both. -/
def w6Store : Store :=
  { kids := [w6KidA, w6KidB],
    tags := [],
    tasks := [mkTask 1 6 "read" 0 false, mkTask 2 60 "swim" 0 false,
              mkTask 3 6 "draw" 1 true],
    propositions := [], interests := [] }

/-- C6: for an authenticated kid, `POST /kids/goal` updates the goal text
and deletes exactly that kid's tasks, while `PUT /kids/goal` updates only
the goal text and leaves every task of every kid unchanged; in both cases
every other kid row and every other table is unchanged. -/
theorem set_goal_semantics (s : Store) (isPost : Bool) (kidId : Nat)
    (goalText : String) (kid : Kid)
    (hk : getKid s kidId = some kid) :
    (setGoal s isPost kidId goalText).1 = .ok () ∧
    (isPost = true →
      (setGoal s isPost kidId goalText).2.tasks
        = s.tasks.filter (fun t => decide (t.kid_id ≠ kid.id))) ∧
    (isPost = false →
      (setGoal s isPost kidId goalText).2.tasks = s.tasks) ∧
    (setGoal s isPost kidId goalText).2.kids
      = s.kids.map (fun k =>
          if k.id = kid.id then { k with goal := some goalText } else k) ∧
    (setGoal s isPost kidId goalText).2.tags = s.tags ∧
    (setGoal s isPost kidId goalText).2.propositions = s.propositions ∧
    (setGoal s isPost kidId goalText).2.interests = s.interests := by
  have hfil : s.tasks.filter (fun t => t.kid_id != kid.id)
      = s.tasks.filter (fun t => decide (t.kid_id ≠ kid.id)) := by
    apply List.filter_congr
    intro t _
    by_cases hEq : t.kid_id = kid.id
    · simp [hEq]
    · simp [hEq]
  cases isPost with
  | false =>
    refine ⟨by simp [setGoal, hk], by simp,
      fun _ => by simp [setGoal, hk, updateKid], ?_, ?_, ?_, ?_⟩
    · simp [setGoal, hk, updateKid, beq_iff_eq]
    · simp [setGoal, hk, updateKid]
    · simp [setGoal, hk, updateKid]
    · simp [setGoal, hk, updateKid]
  | true =>
    refine ⟨by simp [setGoal, hk], fun _ => ?_, by simp, ?_, ?_, ?_, ?_⟩
    · rw [← hfil]
      simp [setGoal, hk, updateKid]
    · simp [setGoal, hk, updateKid, beq_iff_eq]
    · simp [setGoal, hk, updateKid]
    · simp [setGoal, hk, updateKid]
    · simp [setGoal, hk, updateKid]

/-- Witness for C6: on a store with two kids, POST drops exactly kid 6's
tasks, PUT keeps all tasks, and the goal text is replaced either way. -/
theorem set_goal_semantics_witness :
    (setGoal w6Store true 6 "new goal").2.tasks
      = w6Store.tasks.filter (fun t => decide (t.kid_id ≠ w6KidA.id)) ∧
    (setGoal w6Store false 6 "new goal").2.tasks = w6Store.tasks ∧
    (setGoal w6Store true 6 "new goal").2.kids
      = w6Store.kids.map (fun k =>
          if k.id = w6KidA.id then { k with goal := some "new goal" } else k) :=
  ⟨(set_goal_semantics w6Store true 6 "new goal" w6KidA (by decide)).2.1 rfl,
   (set_goal_semantics w6Store false 6 "new goal" w6KidA (by decide)).2.2.1 rfl,
   (set_goal_semantics w6Store true 6 "new goal" w6KidA (by decide)).2.2.2.1⟩

/-- Kid for the C7 witness. -/
def w7Kid : Kid :=
  mkKid 7 "acc-7" (some "79000000007") (some "goal") 100 .not_enough_points

/-- Store for the C7 witness: kid 7's tasks stored with orders 2, 0, 1. -/
def w7Store : Store :=
  { kids := [w7Kid],
    tags := [],
    tasks := [mkTask 11 7 "third" 2 false, mkTask 12 7 "first" 0 false,
              mkTask 13 7 "second" 1 true],
    propositions := [], interests := [] }

/-- C7: for an authenticated kid, `GET /kids/goal/tasks` returns exactly the
kid's stored tasks (a permutation of them), serialized in ascending order of
their `order` field, independent of storage order. -/
theorem tasks_listed_sorted (s : Store) (kidId : Nat) (kid : Kid)
    (hk : getKid s kidId = some kid) :
    ∃ ts : List Task,
      manageTasksGet s kidId = .ok (ts.map taskView) ∧
      ts.Perm (kidTasks s kid.id) ∧
      ts.Pairwise (fun a b => a.order ≤ b.order) := by
  refine ⟨(kidTasks s kid.id).mergeSort (fun a b => a.order ≤ b.order),
    ?_, ?_, ?_⟩
  · unfold manageTasksGet
    rw [hk]
  · exact List.mergeSort_perm _ _
  · have htrans : ∀ a b c : Task,
        (decide (a.order ≤ b.order)) = true →
        (decide (b.order ≤ c.order)) = true →
        (decide (a.order ≤ c.order)) = true := by
      intro a b c hab hbc
      simp only [decide_eq_true_eq] at *
      omega
    have htotal : ∀ a b : Task,
        ((decide (a.order ≤ b.order)) || (decide (b.order ≤ a.order))) = true := by
      intro a b
      simp only [Bool.or_eq_true, decide_eq_true_eq]
      omega
    have h := List.sorted_mergeSort htrans htotal (kidTasks s kid.id)
    exact h.imp (fun hab => by simpa using hab)

/-- Witness for C7: tasks stored with orders 2, 0, 1 come back as a sorted
permutation. -/
theorem tasks_listed_sorted_witness :
    ∃ ts : List Task,
      manageTasksGet w7Store 7 = .ok (ts.map taskView) ∧
      ts.Perm (kidTasks w7Store w7Kid.id) ∧
      ts.Pairwise (fun a b => a.order ≤ b.order) :=
  tasks_listed_sorted w7Store 7 w7Kid (by decide)

/-- Store for the C8 witness: one unrelated tag already present. -/
def w8Store : Store :=
  { kids := [], tags := [{ id := 30, name := "sport" }], tasks := [],
    propositions := [], interests := [] }

/-- C8: creating a tag whose name is not yet stored succeeds with 201 and
appends the row; immediately creating the same name again fails with 400 (a
handled client error, not an unhandled 500) and leaves the stored tags
unchanged. -/
theorem tag_unique_creation (s : Store) (tagName : String)
    (hnew : ∀ t ∈ s.tags, t.name ≠ tagName) :
    (manageTagsPost s tagName).1 = 201 ∧
    (∃ newTag : Tag, newTag.name = tagName ∧
      (manageTagsPost s tagName).2.tags = s.tags ++ [newTag]) ∧
    (manageTagsPost (manageTagsPost s tagName).2 tagName).1 = 400 ∧
    (manageTagsPost (manageTagsPost s tagName).2 tagName).2
      = (manageTagsPost s tagName).2 := by
  have hany : s.tags.any (fun t => t.name == tagName) = false := by
    rw [List.any_eq_false]
    intro t ht
    simp [hnew t ht]
  have h1 : manageTagsPost s tagName
      = (201, { s with tags :=
          s.tags ++ [{ id := nextTagId s, name := tagName }] }) := by
    simp [manageTagsPost, hany]
  have hany2 : (s.tags ++ [({ id := nextTagId s, name := tagName } : Tag)]).any
      (fun t => t.name == tagName) = true := by
    rw [List.any_eq_true]
    exact ⟨{ id := nextTagId s, name := tagName }, by simp, by simp⟩
  refine ⟨by rw [h1],
    ⟨{ id := nextTagId s, name := tagName }, rfl, by rw [h1]⟩, ?_, ?_⟩
  · rw [h1]
    simp [manageTagsPost, hany2]
  · rw [h1]
    simp [manageTagsPost, hany2]

/-- Witness for C8: creating `music` twice yields one 201 and one 400. -/
theorem tag_unique_creation_witness :
    (manageTagsPost w8Store "music").1 = 201 ∧
    (∃ newTag : Tag, newTag.name = "music" ∧
      (manageTagsPost w8Store "music").2.tags = w8Store.tags ++ [newTag]) ∧
    (manageTagsPost (manageTagsPost w8Store "music").2 "music").1 = 400 ∧
    (manageTagsPost (manageTagsPost w8Store "music").2 "music").2
      = (manageTagsPost w8Store "music").2 :=
  tag_unique_creation w8Store "music" (by decide)

/-- Removing the elements that a `filterMap` sends to `none` does not change
its result. -/
theorem filterMap_filter_none {α β : Type} (f : α → Option β) (q : α → Bool)
    (l : List α) (h : ∀ x ∈ l, q x = false → f x = none) :
    (l.filter q).filterMap f = l.filterMap f := by
  induction l with
  | nil => rfl
  | cons a l ih =>
    have hl : ∀ x ∈ l, q x = false → f x = none :=
      fun x hx => h x (List.mem_cons_of_mem a hx)
    cases hq : q a with
    | true => simp [List.filter_cons, hq, List.filterMap_cons, ih hl]
    | false =>
      have hfa : f a = none := h a (List.mem_cons_self a l) hq
      simp [List.filter_cons, hq, List.filterMap_cons, hfa, ih hl]

/-- Kid for the C9 witness. -/
def w9Kid : Kid :=
  mkKid 9 "acc-9" (some "79000000009") (some "goal") 100 .not_enough_points

/-- Store for the C9 witness: one tag `music`, one prior interest row. -/
def w9Store : Store :=
  { kids := [w9Kid], tags := [{ id := 31, name := "music" }], tasks := [],
    propositions := [], interests := [(9, 30)] }

/-- C9 counterexample: kid 9 has no `music` interest yet; requesting
`music` twice in one `POST /kids/interests` emits two INSERTs of the same
`(kid_id, tag_id)` row, the commit violates the composite primary key of
the `interests` table and raises — the request does not succeed and the
store (in particular the interests collection) is unchanged, refuting "the
request still succeeds and the collection gains a second copy". -/
theorem add_interests_duplicate_rejected :
    (addInterests w9Store 9 ["music", "music"]).1 = .error .unhandledError ∧
    (addInterests w9Store 9 ["music", "music"]).1 ≠ .ok () ∧
    (addInterests w9Store 9 ["music", "music"]).2 = w9Store := by
  have h : addInterests w9Store 9 ["music", "music"]
      = (.error .unhandledError, w9Store) := rfl
  rw [h]
  exact ⟨rfl, by simp, rfl⟩

/-- C9 (amended): `POST /kids/interests` silently skips names that resolve
to no stored tag (dropping them changes the resolved rows not at all);
resolved interests not already attached are appended once each; re-attaching
an already-attached interest adds no second copy; and a request whose new
interests collide — the same new interest twice in one request — fails with
an unhandled server error and leaves the store unchanged, so the interests
collection never gains a duplicate row. -/
theorem add_interests_spec (s : Store) (kidId : Nat) (names : List String)
    (kid : Kid) (hk : getKid s kidId = some kid) :
    resolvedInterests s kid.id
        (names.filter (fun n => (findTagByName s n).isSome))
      = resolvedInterests s kid.id names ∧
    ((insertedInterests s kid.id names).Nodup →
      (addInterests s kidId names).1 = .ok () ∧
      (addInterests s kidId names).2.interests
        = s.interests ++ insertedInterests s kid.id names ∧
      (∀ p ∈ s.interests,
        (addInterests s kidId names).2.interests.count p
          = s.interests.count p) ∧
      (s.interests.Nodup → (addInterests s kidId names).2.interests.Nodup) ∧
      (addInterests s kidId names).2.kids = s.kids ∧
      (addInterests s kidId names).2.tags = s.tags ∧
      (addInterests s kidId names).2.tasks = s.tasks) ∧
    (¬ (insertedInterests s kid.id names).Nodup →
      (addInterests s kidId names).1 = .error .unhandledError ∧
      (addInterests s kidId names).2 = s) := by
  have hstep : addInterests s kidId names
      = if (insertedInterests s kid.id names).Nodup
        then (.ok (),
          { s with interests := s.interests ++ insertedInterests s kid.id names })
        else (.error .unhandledError, s) := by
    simp [addInterests, hk]
  have hnotmem : ∀ p ∈ s.interests, p ∉ insertedInterests s kid.id names := by
    intro p hp hmem
    simp only [insertedInterests, List.mem_filter] at hmem
    simp at hmem
    exact hmem.2 hp
  refine ⟨?_, ?_, ?_⟩
  · unfold resolvedInterests
    apply filterMap_filter_none
    intro n _ hq
    have hnone : findTagByName s n = none := by
      cases hfind : findTagByName s n with
      | none => rfl
      | some t =>
        rw [hfind] at hq
        simp at hq
    simp [hnone]
  · intro hnodup
    rw [hstep, if_pos hnodup]
    refine ⟨rfl, rfl, ?_, ?_, rfl, rfl, rfl⟩
    · intro p hp
      have hcount : (insertedInterests s kid.id names).count p = 0 :=
        List.count_eq_zero.mpr (hnotmem p hp)
      simp [List.count_append, hcount]
    · intro hsnodup
      exact hsnodup.append hnodup (fun p hp => hnotmem p hp)
  · intro hnot
    rw [hstep, if_neg hnot]
    exact ⟨rfl, rfl⟩

/-- Witness for the amended C9: requesting `music` (not yet attached) plus
an unknown name succeeds and inserts the music interest once, leaving the
previously attached interest without a second copy. -/
theorem add_interests_spec_witness :
    resolvedInterests w9Store w9Kid.id
        (["music", "unknown"].filter (fun n => (findTagByName w9Store n).isSome))
      = resolvedInterests w9Store w9Kid.id ["music", "unknown"] ∧
    ((insertedInterests w9Store w9Kid.id ["music", "unknown"]).Nodup →
      (addInterests w9Store 9 ["music", "unknown"]).1 = .ok () ∧
      (addInterests w9Store 9 ["music", "unknown"]).2.interests
        = w9Store.interests
          ++ insertedInterests w9Store w9Kid.id ["music", "unknown"] ∧
      (∀ p ∈ w9Store.interests,
        (addInterests w9Store 9 ["music", "unknown"]).2.interests.count p
          = w9Store.interests.count p) ∧
      (w9Store.interests.Nodup →
        (addInterests w9Store 9 ["music", "unknown"]).2.interests.Nodup) ∧
      (addInterests w9Store 9 ["music", "unknown"]).2.kids = w9Store.kids ∧
      (addInterests w9Store 9 ["music", "unknown"]).2.tags = w9Store.tags ∧
      (addInterests w9Store 9 ["music", "unknown"]).2.tasks = w9Store.tasks) ∧
    (¬ (insertedInterests w9Store w9Kid.id ["music", "unknown"]).Nodup →
      (addInterests w9Store 9 ["music", "unknown"]).1 = .error .unhandledError ∧
      (addInterests w9Store 9 ["music", "unknown"]).2 = w9Store) :=
  add_interests_spec w9Store 9 ["music", "unknown"] w9Kid (by decide)

/-- Kid for the C10 witness. -/
def w10Kid : Kid :=
  mkKid 10 "acc-10" (some "79000000010") (some "goal") 100 .not_enough_points

/-- Store for the C10 witness: no propositions and no tasks at all. -/
def w10Store : Store :=
  { kids := [w10Kid], tags := [], tasks := [], propositions := [],
    interests := [] }

/-- C10: an authenticated `GET /propositions/card` whose id matches no
stored proposition dereferences the missing row and surfaces an unhandled
server error — there is no 404 branch — while the task-update handler
(`PUT /kids/goal/tasks`) returns 404 when the addressed task id is absent
and leaves the store unchanged. -/
theorem missing_proposition_unhandled (s : Store) (kidId pid tid : Nat)
    (d : Bool) (kid : Kid)
    (hk : getKid s kidId = some kid)
    (hp : findProposition s pid = none)
    (ht : findTask s tid = none) :
    getPropositionCard s kidId pid = .error .unhandledError ∧
    getPropositionCard s kidId pid ≠ .error (.httpError 404) ∧
    manageTasksPut s kidId tid d = (.error (.httpError 404), s) := by
  refine ⟨?_, ?_, ?_⟩
  · simp [getPropositionCard, hk, hp]
  · simp [getPropositionCard, hk, hp]
  · simp [manageTasksPut, hk, ht]

/-- Witness for C10: with no proposition 99 and no task 88 stored, the card
handler crashes with a server error and the task update returns 404. -/
theorem missing_proposition_unhandled_witness :
    getPropositionCard w10Store 10 99 = .error .unhandledError ∧
    getPropositionCard w10Store 10 99 ≠ .error (.httpError 404) ∧
    manageTasksPut w10Store 10 88 true = (.error (.httpError 404), w10Store) :=
  missing_proposition_unhandled w10Store 10 99 88 true w10Kid
    (by decide) (by decide) (by decide)

end DigitalStart
